import Mathlib

/-!
Shallow embedding of the Sonos router of `src/backend/api/v1/sonos/sonos-router.js`
(multi-room audio control and now-playing aggregation engine), together with
theorems settling the specification claims about it.

JavaScript strings are modelled as Lean `String`; JS `undefined`/`null` values of
string type are modelled as `Option String` with `none` for the absent value, and
JS truthiness (`""`, `null` and `undefined` are falsy) is made explicit.  External
capabilities (the sonos control client, HTTP fetch, the filesystem cache
directory) are modelled as explicit oracles/state threaded through the
definitions, with one oracle consultation wherever the source performs one call.
-/

namespace SonosHub

/-! ## Character-list string primitives

The JS string operations used by the router (`startsWith`, `includes`,
`replace(/…/g, …)`, `trim`, `toLowerCase`, …) are implemented over `List Char`
by structural recursion so that every definition is executable and
kernel-reducible. -/

/-- Does the first list start with the second? (`String.prototype.startsWith`). -/
def startsWithL : List Char → List Char → Bool
  | _, [] => true
  | [], _ :: _ => false
  | c :: cs, p :: ps => c == p && startsWithL cs ps

/-- If `s` starts with `pat`, the remainder of `s` after `pat`. -/
def dropPat : List Char → List Char → Option (List Char)
  | s, [] => some s
  | [], _ :: _ => none
  | c :: cs, p :: ps => if c == p then dropPat cs ps else none

/-- Substring containment (`String.prototype.includes`): does the list contain
`pat` as a contiguous sublist? -/
def containsAt (pat : List Char) : List Char → Bool
  | [] => startsWithL [] pat
  | c :: cs => startsWithL (c :: cs) pat || containsAt pat cs

/-- Suffix of `s` strictly after the first occurrence of `pat`; `none` when
`pat` does not occur. -/
def afterPat (pat : List Char) : List Char → Option (List Char)
  | [] => dropPat [] pat
  | c :: cs =>
    match dropPat (c :: cs) pat with
    | some rest => some rest
    | none => afterPat pat cs

/-- Chars of `s` strictly before the first occurrence of `pat`; `none` when
`pat` does not occur. -/
def beforePat (pat : List Char) : List Char → Option (List Char)
  | [] => if (dropPat [] pat).isSome then some [] else none
  | c :: cs =>
    match dropPat (c :: cs) pat with
    | some _ => some []
    | none => (beforePat pat cs).map (c :: ·)

/-- Global replacement of a non-empty pattern, left to right, non-overlapping
(JS `String.prototype.replace` with a global literal regex).  Fuel-based so the
definition is structurally total; the fuel `s.length` always suffices for a
non-empty pattern. -/
def replaceFuel (pat rep : List Char) : Nat → List Char → List Char
  | 0, s => s
  | _ + 1, [] => []
  | n + 1, c :: cs =>
    match dropPat (c :: cs) pat with
    | some rest => rep ++ replaceFuel pat rep n rest
    | none => c :: replaceFuel pat rep n cs

/-- `String` wrapper for `startsWithL`. -/
def strStartsWith (s pat : String) : Bool := startsWithL s.data pat.data

/-- `String` wrapper for `containsAt`. -/
def strContains (s pat : String) : Bool := containsAt pat.data s.data

/-- `String` wrapper for `replaceFuel`: replace every occurrence of `pat`. -/
def replaceAllS (s pat rep : String) : String :=
  ⟨replaceFuel pat.data rep.data s.data.length s.data⟩

/-- Lower-case every character (`String.prototype.toLowerCase`). -/
def lowerS (s : String) : String := ⟨s.data.map Char.toLower⟩

/-- Case-insensitive containment (JS `/…/i.test`). -/
def containsCI (s pat : String) : Bool := strContains (lowerS s) (lowerS pat)

/-- Strip leading and trailing whitespace (`String.prototype.trim`). -/
def trimS (s : String) : String :=
  ⟨((s.data.dropWhile Char.isWhitespace).reverse.dropWhile Char.isWhitespace).reverse⟩

/-! ## JS truthiness over optional strings -/

/-- JS truthiness of a string-valued expression: `undefined`/`null` (`none`) and
the empty string are falsy. -/
def truthy : Option String → Bool
  | none => false
  | some s => !(s == "")

/-- JS `a || b` on string-valued expressions. -/
def jsOr (a b : Option String) : Option String := if truthy a then a else b

/-- JS `a || b || ""`: first truthy value, defaulting to the empty string. -/
def jsOrStr (a b : Option String) : String :=
  if truthy a then a.getD "" else if truthy b then b.getD "" else ""

/-- Interpolating a possibly-undefined value into a template literal renders
`undefined` as the string `"undefined"`. -/
def jsInterp (o : Option String) : String := o.getD "undefined"

/-! ## Entity unescaping, percent decoding, digest

The router unescapes XML entities inline with chained `.replace` calls (in two
different orders at its two sites), percent-decodes with the JS builtin
`decodeURIComponent`, and digests canonical artwork URIs with md5. -/

/-- Entity unescape chain of `parseTrackMeta`: `&lt; &gt; &quot; &apos; &amp;`,
applied in exactly that order. -/
def unescapeXml (s : String) : String :=
  replaceAllS (replaceAllS (replaceAllS (replaceAllS (replaceAllS s
    "&lt;" "<") "&gt;" ">") "&quot;" "\"") "&apos;" "'") "&amp;" "&"

/-- Entity unescape chain of `cacheArtwork`: `&amp; &quot; &lt; &gt;`, applied in
exactly that order. -/
def unescapeArt (s : String) : String :=
  replaceAllS (replaceAllS (replaceAllS (replaceAllS s
    "&amp;" "&") "&quot;" "\"") "&lt;" "<") "&gt;" ">"

/-- Value of a hex digit character, `none` otherwise. -/
def hexVal (c : Char) : Option Nat :=
  let n := c.toNat
  if 48 ≤ n && n ≤ 57 then some (n - 48)
  else if 97 ≤ n && n ≤ 102 then some (n - 87)
  else if 65 ≤ n && n ≤ 70 then some (n - 55)
  else none

/-- Model of the JS builtin `decodeURIComponent`: decodes `%XX` hex escapes and
fails (`none`, modelling the thrown `URIError`) on a malformed escape — a `%`
not followed by two hex digits.  (Multi-byte UTF-8 sequence validation of the
builtin is not modelled; the router's behaviour of interest is only that a
malformed escape throws and that decoding is deterministic.) -/
def pctDecode : List Char → Option (List Char)
  | [] => some []
  | '%' :: a :: b :: rest =>
    match hexVal a, hexVal b with
    | some x, some y => (pctDecode rest).map (Char.ofNat (16 * x + y) :: ·)
    | _, _ => none
  | ['%', _] => none
  | ['%'] => none
  | c :: cs => (pctDecode cs).map (c :: ·)

/-- Lower-case hex digit for a value `< 16`. -/
def hexDigit (n : Nat) : Char :=
  if n < 10 then Char.ofNat ('0'.toNat + n) else Char.ofNat ('a'.toNat + n - 10)

/-- Model of `crypto.createHash("md5").update(s).digest("hex")`: an opaque
deterministic hex digest of the canonical URI.  Only determinism of the digest
matters to the router's behaviour, so it is modelled as a byte-wise hex
encoding (producing only hex-digit characters, like the real digest). -/
def md5hex (s : String) : String :=
  ⟨s.data.foldr (fun c acc => hexDigit (c.toNat / 16 % 16) :: hexDigit (c.toNat % 16) :: acc) []⟩

/-! ## cacheArtwork -/

/-- Outcome of an HTTP fetch as observed by `cacheArtwork`: an ok response, a
non-ok response with its status, or a thrown exception (network failure). -/
inductive FetchOutcome
  | ok
  | httpErr (status : Nat)
  | throwEx
deriving DecidableEq

/-- Canonicalization step of `cacheArtwork`: entity unescape, then
`decodeURIComponent`; `none` when the decode throws. -/
def canonicalArt (u : String) : Option String :=
  (pctDecode (unescapeArt u).data).map (⟨·⟩)

/-- The artwork cache state: the set of file names present in the artwork cache
directory (`<runtime>/cache/artwork`). -/
abbrev CacheDisk := List String

/--
Embedding of `cacheArtwork(uri)` (sonos-router.js lines 29–61).
Returns the result (`none` models the JS `null`), the updated cache directory
contents, and the number of remote fetches performed (0 or 1).

Source shape: guard on absent / non-`http` input; canonicalize (entity
unescape then `decodeURIComponent`, whose throw is caught and yields `null`);
hash to `<hash>.jpg`; if the file is absent, fetch once — an ok response is
persisted, a non-ok response only logs; either way the public path
`/runtime/cache/artwork/<hash>.jpg` is returned; a thrown fetch is caught and
yields `null`.
-/
def cacheArtwork (fetch : String → FetchOutcome) (st : CacheDisk) (uri : Option String) :
    Option String × CacheDisk × Nat :=
  match uri with
  | none => (none, st, 0)
  | some u =>
    if !strStartsWith u "http" then (none, st, 0)
    else
      match canonicalArt u with
      | none => (none, st, 0)
      | some cleanUri =>
        let hash := md5hex cleanUri
        let fileName := hash ++ ".jpg"
        let pubPath := "/runtime/cache/artwork/" ++ (hash ++ ".jpg")
        if st.contains fileName then (some pubPath, st, 0)
        else
          match fetch cleanUri with
          | .ok => (some pubPath, fileName :: st, 1)
          | .httpErr _ => (some pubPath, st, 1)
          | .throwEx => (none, st, 1)

/-- Two successive `cacheArtwork` calls on the same URI, threading the cache
directory state; the two calls perform independent fetches, so each call has
its own fetch oracle.  Returns both results and the total number of fetches. -/
def cacheTwice (fetch1 fetch2 : String → FetchOutcome) (st : CacheDisk) (uri : Option String) :
    Option String × Option String × Nat :=
  ((cacheArtwork fetch1 st uri).1,
   (cacheArtwork fetch2 (cacheArtwork fetch1 st uri).2.1 uri).1,
   (cacheArtwork fetch1 st uri).2.2 +
     (cacheArtwork fetch2 (cacheArtwork fetch1 st uri).2.1 uri).2.2)

/-! ## DIDL-Lite metadata parsing (`parseTrackMeta`)

`parseTrackMeta` feeds the unescaped markup to `xml2js` with
`explicitArray:false` and reads text fields off `data["DIDL-Lite"].item`.  The
xml2js behaviour is modelled by direct text extraction: the region of the first
`<item …>…</item>` element, and within a region the text content of the first
`<tag>…</tag>` element (attribute-free tags, as DIDL-Lite text fields are). -/

/-- Region of the first `<item …>…</item>` element of the document: the chars
after the closing `>` of the opening tag and before `</item>`. -/
def itemRegion (doc : String) : Option (List Char) :=
  (afterPat "<item".data doc.data).bind fun r1 =>
    (afterPat ">".data r1).bind fun r2 =>
      beforePat "</item>".data r2

/-- Text content of the first `<tag>…</tag>` element inside a region;
`none` models an absent (`undefined`) property of the parsed item. -/
def fieldOf (region : Option (List Char)) (tag : String) : Option String :=
  region.bind fun r =>
    (afterPat ("<" ++ tag ++ ">").data r).bind fun r1 =>
      (beforePat ("</" ++ tag ++ ">").data r1).map (⟨·⟩)

/-- Text content of the first `<tag>…</tag>` element anywhere in the document
(used for the `DIDL-Lite`-level album-art fallback of the stream-metadata
stage). -/
def docField (doc : String) (tag : String) : Option String :=
  fieldOf (some doc.data) tag

/-- The metadata object produced by `parseTrackMeta` on a successful parse:
`title`/`artist`/`album` are strings (defaulted to `""` by `|| ""` / `|| …`),
`artwork` may be absent. -/
structure TrackMeta where
  title : String
  artist : String
  album : String
  artwork : Option String
deriving DecidableEq

/--
Field extraction of `parseTrackMeta(xml, host)` (sonos-router.js lines 78–99)
on unescaped markup containing the `<DIDL-Lite` root:
`title = item["r:streamContent"] || item["dc:title"] || ""`;
`artist = item["dc:creator"] || ""`; `album = item["upnp:album"] || ""`;
`artwork = item["upnp:albumArtURI"] || item["r:albumArtURI"] || item["albumArtURI"]`,
absolutized against `http://<host>:1400` when truthy and not `http`-prefixed.
-/
def metaOfDecoded (decoded host : String) : TrackMeta :=
  let item := itemRegion decoded
  let title := jsOrStr (fieldOf item "r:streamContent") (fieldOf item "dc:title")
  let artist := jsOrStr (fieldOf item "dc:creator") none
  let album := jsOrStr (fieldOf item "upnp:album") none
  let artworkRaw := jsOr (fieldOf item "upnp:albumArtURI")
    (jsOr (fieldOf item "r:albumArtURI") (fieldOf item "albumArtURI"))
  let artwork :=
    if truthy artworkRaw && !strStartsWith (artworkRaw.getD "") "http" then
      some ("http://" ++ host ++ ":1400" ++ artworkRaw.getD "")
    else artworkRaw
  { title, artist, album, artwork }

/--
Embedding of `parseTrackMeta(xml, host)` (sonos-router.js lines 66–104).
`none` models the empty object `{}` returned on absent/non-string input, on
markup lacking a `<DIDL-Lite` root (after entity unescaping), or on a parser
throw; otherwise the fields of `metaOfDecoded`.
-/
def parseTrackMeta (xml : Option String) (host : String) : Option TrackMeta :=
  match xml with
  | none => none
  | some x =>
    if !strContains (unescapeXml x) "<DIDL-Lite" then none
    else some (metaOfDecoded (unescapeXml x) host)

/-! ## The group-building pipeline (`buildGroups`)

Step 1 of `buildGroups` (the zone-group-topology SOAP round trip and its XML
parse) is abstracted into the environment: `Env.topology` holds the parsed
coordinator → members pairs in reply order.  Everything from the topology map
construction (last-seen overwrite of a duplicated coordinator id, silent drop
of a coordinator id with no registered device) through stages 2A–2H is embedded
from the source.  Each oracle consultation corresponds to one network call of
the source and is recorded as a `NetOp`. -/

/-- A registered sonos device, as exposed by the control-protocol client:
the `Uuid` and `Host` properties read throughout the router. -/
structure Device where
  Uuid : String
  Host : String
deriving DecidableEq

/-- JS property read `coord.uuid` in the play handler: `SonosDeviceBase`
declares `protected readonly uuid` and assigns it in its constructor, and the
`Uuid` getter returns that field; TypeScript `protected` is erased at runtime,
so the read yields an ordinary instance property equal to `Uuid`. -/
def Device.uuidRuntime (d : Device) : String := d.Uuid

/-- A topology member entry as built from the zone group state
(`ZoneName` / `Location` hostname / `UUID`). -/
structure Member where
  name : String
  host : String
  uuid : String
deriving DecidableEq

/-- A member entry as it appears in the assembled group: the volume-retrieval
loop mutates a `volume` property onto it (`none` models both an unset property
after a lookup miss and the `null` written on a query failure). -/
structure MemberOut where
  name : String
  host : String
  uuid : String
  volume : Option Int
deriving DecidableEq

/-- `GetPositionInfo` response fields used by the router. -/
structure PosInfo where
  TrackURI : Option String
  TrackMetaData : Option String

/-- `GetMediaInfo` response fields used by the router. -/
structure MediaInfo where
  CurrentURIMetaData : Option String
  EnqueuedTransportURIMetaData : Option String

/-- Spotify oEmbed JSON fields used by the router. -/
structure OEmbedData where
  thumbnail_url : Option String
  title : Option String

/-- The incrementally assembled track object.  All string fields are
`Option String` to model JS `undefined`/`null`; the initializer sets the first
five to `""` and `artwork` to `null`. -/
structure Track where
  title : Option String
  artist : Option String
  album : Option String
  source : Option String
  uri : Option String
  artwork : Option String
deriving DecidableEq

/-- `{ title: "", artist: "", album: "", source: "", uri: "", artwork: null }`. -/
def initTrack : Track :=
  { title := some "", artist := some "", album := some "", source := some "",
    uri := some "", artwork := none }

/-- One network interaction of the engine, for reasoning about which calls a
request performs and in which order. -/
inductive NetOp
  | getPos (host : String)
  | getTransport (host : String)
  | getMedia (host : String)
  | oembedFetch (id : String)
  | streamFetch (host : String)
  | artFetch
  | getVol (host : String)
  | setVol (host : String) (v : ℚ)
deriving DecidableEq

/-- The environment of a group-listing request: the registered devices, the
parsed topology reply, and one oracle per control-protocol/HTTP call.  An outer
`none` of an oracle models the call throwing; inner `Option`s model absent
(`undefined`) response fields.  `posInfo`/`transportInfo`/`mediaInfo` are keyed
by the coordinator's `Uuid`; `streamMeta`/`getVolume` by host; `oembed` by the
extracted spotify track id; `streamMeta` yields the `CurrentURIMetaData` string
of the dedicated `GetMediaInfo` SOAP reply, after the object-form collapse. -/
structure Env where
  devices : List Device
  topology : List (String × List Member)
  posInfo : String → Option PosInfo
  transportInfo : String → Option (Option String)
  mediaInfo : String → Option MediaInfo
  oembed : String → Option OEmbedData
  streamMeta : String → Option String
  getVolume : String → Option Int
  fetchArt : String → FetchOutcome
  diskInit : CacheDisk

/-- The spread merge `track = { ...track, ...meta }` of stage 2A: an empty parse
result leaves the track unchanged, a full metadata object replaces all four
metadata fields (even with emptier data). -/
def spreadMeta (t : Track) (m : Option TrackMeta) : Track :=
  match m with
  | none => t
  | some m =>
    { t with title := some m.title, artist := some m.artist,
             album := some m.album, artwork := m.artwork }

/-- The conditional fills of stage 2B: each field is assigned whenever the
media metadata's value for it is truthy (non-empty). -/
def mergeMediaMeta (t : Track) (m : Option TrackMeta) : Track :=
  match m with
  | none => t
  | some m =>
    let t := if m.title != "" then { t with title := some m.title } else t
    let t := if m.artist != "" then { t with artist := some m.artist } else t
    let t := if m.album != "" then { t with album := some m.album } else t
    if truthy m.artwork then { t with artwork := m.artwork } else t

/-- Stage 2A — position info + transport state, one failure boundary around
both calls: a throw in `GetPositionInfo` skips the transport-info call; a throw
in `GetTransportInfo` discards the position data too (the URI assignment and
metadata merge come after it).  Returns (track, state, calls made). -/
def stage2A (env : Env) (coord : Device) (track : Track) :
    Track × String × List NetOp :=
  match env.posInfo coord.Uuid with
  | none => (track, "unknown", [.getPos coord.Host])
  | some pos =>
    match env.transportInfo coord.Uuid with
    | none => (track, "unknown", [.getPos coord.Host, .getTransport coord.Host])
    | some stField =>
      let state := match stField with
        | none => "unknown"
        | some s => if lowerS s == "" then "unknown" else lowerS s
      let t := { track with uri := some (jsOrStr pos.TrackURI none) }
      let t := spreadMeta t (parseTrackMeta pos.TrackMetaData coord.Host)
      (t, state, [.getPos coord.Host, .getTransport coord.Host])

/-- Stage 2B — `GetMediaInfo`, parsing `CurrentURIMetaData ||
EnqueuedTransportURIMetaData` and applying the conditional fills. -/
def stage2B (env : Env) (coord : Device) (track : Track) :
    Track × List NetOp :=
  match env.mediaInfo coord.Uuid with
  | none => (track, [.getMedia coord.Host])
  | some mi =>
    let meta := parseTrackMeta
      (jsOr mi.CurrentURIMetaData mi.EnqueuedTransportURIMetaData) coord.Host
    (mergeMediaMeta track meta, [.getMedia coord.Host])

/-- Stage 2C — TuneIn placeholder artwork. -/
def stage2C (t : Track) : Track :=
  if !truthy t.artwork && strContains (t.uri.getD "") "x-rincon-mp3radio" then
    { t with artwork := some "/runtime/cache/artwork/tunein-default.jpg" }
  else t

/-- Track id extraction `uri.match(/spotify:track:([A-Za-z0-9]+)/)?.[1]`:
the alphanumeric run after the first `spotify:track:`; empty run → no match. -/
def spotifyId (uri : String) : Option String :=
  (afterPat "spotify:track:".data uri.data).bind fun rest =>
    let idc := rest.takeWhile Char.isAlphanum
    if idc.isEmpty then none else some ⟨idc⟩

/-- Does the string end with the pattern? -/
def endsWithS (s pat : String) : Bool :=
  startsWithL s.data.reverse pat.data.reverse

/-- `title.replace(/ - topic$/i, "")`: strip a trailing `" - topic"`,
case-insensitively. -/
def stripTopic (s : String) : String :=
  if endsWithS (lowerS s) " - topic" then ⟨s.data.take (s.data.length - 8)⟩ else s

/-- Stage 2D — Spotify oEmbed fallback: only when artwork is still falsy and
the URI carries a `spotify:track:` id; a non-ok or throwing oEmbed fetch leaves
the track unchanged. -/
def stage2D (env : Env) (t : Track) : Track × List NetOp :=
  if truthy t.artwork || !strContains (t.uri.getD "") "spotify:track:" then (t, [])
  else
    match spotifyId (t.uri.getD "") with
    | none => (t, [])
    | some id =>
      match env.oembed id with
      | none => (t, [.oembedFetch id])
      | some d =>
        let t := { t with artwork := jsOr d.thumbnail_url t.artwork }
        let t := { t with title := jsOr t.title (d.title.map stripTopic) }
        (t, [.oembedFetch id])

/-- Test `/^https?:\/\//i`. -/
def httpAbs (s : String) : Bool :=
  strStartsWith (lowerS s) "http://" || strStartsWith (lowerS s) "https://"

/-- Upper-case hex digit for a value `< 16`. -/
def hexDigitU (n : Nat) : Char :=
  if n < 10 then Char.ofNat ('0'.toNat + n) else Char.ofNat ('A'.toNat + n - 10)

/-- Characters `encodeURIComponent` leaves unescaped. -/
def encSafe (c : Char) : Bool :=
  c.isAlphanum || c ∈ ['-', '_', '.', '!', '~', '*', Char.ofNat 39, '(', ')']

/-- Model of the JS builtin `encodeURIComponent` (ASCII inputs: each escaped
character becomes one `%XX` triple). -/
def encodeURIComponentS (s : String) : String :=
  ⟨s.data.foldr (fun c acc =>
    if encSafe c then c :: acc
    else '%' :: hexDigitU (c.toNat / 16 % 16) :: hexDigitU (c.toNat % 16) :: acc) []⟩

/-- Stage 2E — TuneIn / AAC advanced metadata: for radio/stream URIs issue a
dedicated media-info SOAP call; on a `<DIDL-Lite` payload, resolve an album-art
reference (item-level, else document-level), absolutize it, and install it when
artwork is absent or still the TuneIn placeholder; an `aac://` URI with no art
reference gets the coordinator's `getaa` URL; then backfill title/artist/album.
Any throw in the block leaves the track unchanged. -/
def stage2E (env : Env) (host : String) (t : Track) : Track × List NetOp :=
  let uriS := t.uri.getD ""
  if !(strContains uriS "tunein" || strContains uriS "mp3radio" ||
       strStartsWith uriS "aac://") then (t, [])
  else
    match env.streamMeta host with
    | none => (t, [.streamFetch host])
    | some mc =>
      if !strContains mc "<DIDL-Lite" then (t, [.streamFetch host])
      else
        let item := itemRegion mc
        let artUri := jsOr (fieldOf item "upnp:albumArtURI")
          (jsOr (docField mc "upnp:albumArtURI") none)
        let t :=
          if truthy artUri then
            let a1 := trimS (replaceAllS (artUri.getD "") "&amp;" "&")
            let a2 := if httpAbs a1 then a1 else "http://" ++ host ++ ":1400" ++ a1
            if !truthy t.artwork || strContains (t.artwork.getD "") "tunein-default" then
              { t with artwork := some a2 }
            else t
          else if strStartsWith uriS "aac://" then
            let gaa := "http://" ++ host ++ ":1400/getaa?s=1&u=" ++ encodeURIComponentS uriS
            { t with artwork := some gaa }
          else t
        let t := { t with title := jsOr t.title (fieldOf item "dc:title") }
        let creatorD := some (jsOrStr (fieldOf item "dc:creator") (some "Live Stream"))
        let t := { t with artist := jsOr t.artist creatorD }
        let t := { t with album := jsOr t.album (some "TuneIn Radio") }
        (t, [.streamFetch host])

/-- Stage 2F — source normalization: ordered substring classification of the
URI. -/
def stage2F (t : Track) : Track :=
  let uriS := t.uri.getD ""
  { t with source := some (
      if strContains uriS "spotify" then "Spotify"
      else if strContains uriS "mp3radio" then "MP3 Radio"
      else if strContains uriS "tunein" then "TuneIn"
      else "Sonos Queue") }

/-- Stage 2G — resolve artwork through the cache: `if (artFile)
track.artwork = artFile`, so a `null` cache result keeps the previous value. -/
def stage2G (env : Env) (st : CacheDisk) (t : Track) :
    Track × CacheDisk × List NetOp :=
  let r := cacheArtwork env.fetchArt st t.artwork
  let t' := if truthy r.1 then { t with artwork := r.1 } else t
  (t', r.2.1, if r.2.2 > 0 then [.artFetch] else [])

/-- Stage 2H — per-member volume retrieval: a member whose host resolves to no
registered device is skipped without a call; a throwing `GetVolume` writes
`volume = null` and is excluded from the collected list; a success is recorded
on the member and collected.  Returns (members with volumes, collected
volumes, calls made). -/
def stage2H (env : Env) : List Member → List MemberOut × List Int × List NetOp
  | [] => ([], [], [])
  | m :: rest =>
    match env.devices.find? (fun d => d.Host == m.host) with
    | none =>
      (⟨m.name, m.host, m.uuid, none⟩ :: (stage2H env rest).1,
       (stage2H env rest).2.1, (stage2H env rest).2.2)
    | some _ =>
      match env.getVolume m.host with
      | some v =>
        (⟨m.name, m.host, m.uuid, some v⟩ :: (stage2H env rest).1,
         v :: (stage2H env rest).2.1, .getVol m.host :: (stage2H env rest).2.2)
      | none =>
        (⟨m.name, m.host, m.uuid, none⟩ :: (stage2H env rest).1,
         (stage2H env rest).2.1, .getVol m.host :: (stage2H env rest).2.2)

/-- `Math.round(s / n)` for an integer sum `s` of `n` values:
`⌊s/n + 1/2⌋ = ⌊(2s + n) / (2n)⌋` (floor division). -/
def mathRound2 (s : Int) (n : Nat) : Int := Int.fdiv (2 * s + n) (2 * n)

/-- `vols.length > 0 ? Math.round(sum / length) : 0`. -/
def avgVol (vols : List Int) : Int :=
  if vols.isEmpty then 0 else mathRound2 vols.sum vols.length

/-- Decimal rendering of a `Nat` (fuel-based structural recursion). -/
def natToStrAux : Nat → Nat → List Char
  | 0, _ => []
  | f + 1, n =>
    if n < 10 then [Char.ofNat ('0'.toNat + n)]
    else natToStrAux f (n / 10) ++ [Char.ofNat ('0'.toNat + n % 10)]

/-- Decimal rendering of a `Nat`. -/
def natToStr (n : Nat) : String := ⟨natToStrAux (n + 1) n⟩

/-- Group display name: `` `${members[0]?.name}${members.length > 1 ? " +" +
(members.length - 1) : ""}` `` (an empty member list renders `undefined`). -/
def groupName (members : List Member) : String :=
  (match members.head? with | some m => m.name | none => "undefined") ++
  (if members.length > 1 then " +" ++ natToStr (members.length - 1) else "")

/-- One assembled group of the listing. -/
structure GroupOut where
  id : String
  name : String
  coordinator : String
  status : String
  track : Track
  avgVolume : Int
  members : List MemberOut
deriving DecidableEq

/-- Assemble one group: drop it silently when the coordinator id resolves to no
registered device; otherwise run stages 2A–2H and assemble the snapshot,
threading the artwork cache state. -/
def buildGroup (env : Env) (st : CacheDisk) (coordId : String) (members : List Member) :
    Option GroupOut × CacheDisk × List NetOp :=
  match env.devices.find? (fun d => d.Uuid == coordId) with
  | none => (none, st, [])
  | some coord =>
    let r1 := stage2A env coord initTrack
    let r2 := stage2B env coord r1.1
    let t3 := stage2C r2.1
    let r4 := stage2D env t3
    let r5 := stage2E env coord.Host r4.1
    let t6 := stage2F r5.1
    let r7 := stage2G env st t6
    let r8 := stage2H env members
    (some { id := coordId, name := groupName members, coordinator := coordId,
            status := r1.2.1, track := r7.1, avgVolume := avgVol r8.2.1,
            members := r8.1 },
     r7.2.1,
     r1.2.2 ++ r2.2 ++ r4.2 ++ r5.2 ++ r7.2.2 ++ r8.2.2)

/-- `groups.set(coordId, members)` over a `Map`: a repeated coordinator id
overwrites the stored members but keeps its original position. -/
def insertTopo (acc : List (String × List Member)) (e : String × List Member) :
    List (String × List Member) :=
  if acc.any (fun p => p.1 == e.1) then
    acc.map (fun p => if p.1 == e.1 then (p.1, e.2) else p)
  else acc ++ [e]

/-- The coordinator → members map in insertion order. -/
def dedupeTopo (l : List (String × List Member)) : List (String × List Member) :=
  l.foldl insertTopo []

/-- Assemble all groups of the topology in map order, threading the cache
state and concatenating the performed calls. -/
def buildGroupsFrom (env : Env) :
    List (String × List Member) → CacheDisk → List GroupOut × CacheDisk × List NetOp
  | [], st => ([], st, [])
  | (cid, ms) :: rest, st =>
    let r := buildGroup env st cid ms
    let rr := buildGroupsFrom env rest r.2.1
    ((match r.1 with | some g => g :: rr.1 | none => rr.1), rr.2.1, r.2.2 ++ rr.2.2)

/-- Embedding of `buildGroups()` (sonos-router.js lines 142–407) from the
parsed topology onward, also exposing the final cache state and the network
calls performed. -/
def buildGroupsFull (env : Env) : List GroupOut × CacheDisk × List NetOp :=
  buildGroupsFrom env (dedupeTopo env.topology) env.diskInit

/-- The group listing produced by `buildGroups()`. -/
def buildGroups (env : Env) : List GroupOut := (buildGroupsFull env).1

/-! ## Transport command dispatcher: the play endpoint -/

/-- Outcome of one `Play` action invocation. -/
inductive PlayRes
  | playOk
  | playFail (msg : String)
deriving DecidableEq

/-- A transport action issued by the play handler. -/
inductive TransportAct
  | playAct
  | setURIAct (host : String) (uri : String)
deriving DecidableEq

/-- Result of a transport endpoint request. -/
inductive DispatchOut
  | okD (action : String) (id : String)
  | errD (msg : String)
deriving DecidableEq

/-- Environment of a play dispatch: the registered devices and the outcomes of
the first `Play` attempt and of the retry (the `SetAVTransportURI` rebinds have
their own per-device failure boundary, so their outcomes are irrelevant). -/
structure PlayEnv where
  devices : List Device
  play1 : PlayRes
  play2 : PlayRes

/--
Embedding of the play branch of the transport endpoint handler
(sonos-router.js lines 457–502, `method === "Play"`).

Source shape: resolve the coordinator by `Uuid`; attempt `Play`; on an error
matching `/UPnPError 402/i`, compute `coordURI = ` `` `x-rincon:${coord.uuid}` ``
(the runtime `uuid` property of the device, equal to its `Uuid` — see
`Device.uuidRuntime`), issue `SetAVTransportURI` to every registered device
(each in its own try/catch), and retry `Play` exactly once — a retry failure
propagates to the surrounding catch; any other first-attempt error propagates
immediately with no rebind and no retry.
-/
def playHandler (env : PlayEnv) (groupId : Option String) :
    DispatchOut × List TransportAct :=
  match groupId with
  | none => (.errD "Missing 'groupId' for play", [])
  | some gid =>
    match env.devices.find? (fun d => d.Uuid == gid) with
    | none => (.errD ("Coordinator not found: " ++ gid), [])
    | some coord =>
      match env.play1 with
      | .playOk => (.okD "play" gid, [.playAct])
      | .playFail msg =>
        if containsCI msg "UPnPError 402" then
          let coordURI := "x-rincon:" ++ coord.uuidRuntime
          let rebinds := env.devices.map (fun d => TransportAct.setURIAct d.Host coordURI)
          match env.play2 with
          | .playOk => (.okD "play" gid, .playAct :: rebinds ++ [.playAct])
          | .playFail m2 => (.errD m2, .playAct :: rebinds ++ [.playAct])
        else (.errD msg, [.playAct])

/-! ## The volume endpoint -/

/-- Are all characters decimal digits? -/
def allDigits (cs : List Char) : Bool := cs.all Char.isDigit

/-- Numeric value of a digit string. -/
def digitsVal (cs : List Char) : Nat :=
  cs.foldl (fun a c => a * 10 + (c.toNat - '0'.toNat)) 0

/-- A JS number as relevant to the volume endpoint: `NaN`, `±Infinity`, or a
finite value.  Finite values are modelled as exact rationals (IEEE double
rounding is not modelled; it is irrelevant to the endpoint's range check). -/
inductive JSNum
  | nan
  | posInf
  | negInf
  | num (q : ℚ)
deriving DecidableEq

/-- Signed rational `±n / d`. -/
def signedRat (neg : Bool) (n : Nat) (d : Nat) : ℚ :=
  mkRat (if neg then -(n : Int) else (n : Int)) d

/-- Value of a non-empty digit string in the given base; `none` on an empty
string or an out-of-base character. -/
def radixNat (base : Nat) (digitV : Char → Option Nat) : List Char → Option Nat
  | [] => none
  | cs => cs.foldl (fun acc c =>
      match acc, digitV c with
      | some a, some d => some (a * base + d)
      | _, _ => none) (some 0)

/-- Value of an octal digit character, `none` otherwise. -/
def octVal (c : Char) : Option Nat :=
  let n := c.toNat
  if 48 ≤ n && n ≤ 55 then some (n - 48) else none

/-- Value of a binary digit character, `none` otherwise. -/
def binVal (c : Char) : Option Nat :=
  if c == '0' then some 0 else if c == '1' then some 1 else none

/-- Exponent tail of a decimal literal: `e`/`E` followed by an optional sign
and one or more digits scales the mantissa `m / 10^|frac|` by `10^±k`. -/
def jsExpTail (neg : Bool) (ip fp : List Char) (eneg : Bool) (t : List Char) : JSNum :=
  if t.isEmpty || !allDigits t then .nan
  else
    let m := digitsVal ip * 10 ^ fp.length + digitsVal fp
    let k := digitsVal t
    if eneg then .num (signedRat neg m (10 ^ fp.length * 10 ^ k))
    else .num (signedRat neg (m * 10 ^ k) (10 ^ fp.length))

/-- Decimal literal after integer part `ip`, fraction part `fp` and remainder
`r2`: digits must occur somewhere; an empty remainder yields the value, an
`e`/`E` remainder parses an exponent, anything else is `NaN`. -/
def jsDecimalTail (neg : Bool) (ip fp r2 : List Char) : JSNum :=
  if ip.isEmpty && fp.isEmpty then .nan
  else
    match r2 with
    | [] => .num (signedRat neg (digitsVal ip * 10 ^ fp.length + digitsVal fp) (10 ^ fp.length))
    | e :: t =>
      if e == 'e' || e == 'E' then
        match t with
        | '+' :: t2 => jsExpTail neg ip fp false t2
        | '-' :: t2 => jsExpTail neg ip fp true t2
        | _ => jsExpTail neg ip fp false t
      else .nan

/-- Signed decimal body: `Infinity`, or `digits [. digits] [exp]` /
`. digits [exp]`. -/
def jsDecimal (neg : Bool) (cs : List Char) : JSNum :=
  if cs == "Infinity".data then (if neg then .negInf else .posInf)
  else
    let ip := cs.takeWhile Char.isDigit
    match cs.drop ip.length with
    | '.' :: t =>
      jsDecimalTail neg ip (t.takeWhile Char.isDigit) (t.drop (t.takeWhile Char.isDigit).length)
    | r1 => jsDecimalTail neg ip [] r1

/-- Model of the JS builtin `Number(string)` as used by the volume endpoint:
trim whitespace; empty → `0`; an unsigned `0x`/`0o`/`0b` radix literal; else an
optionally signed decimal literal with optional fraction and exponent, or
`Infinity`; anything else is `NaN`.  (`-0` is collapsed to `0`, which the
endpoint's comparisons cannot distinguish.) -/
def jsNumber (s : String) : JSNum :=
  match (trimS s).data with
  | [] => .num (mkRat 0 1)
  | '0' :: x :: rest =>
    if x == 'x' || x == 'X' then
      match radixNat 16 hexVal rest with
      | some n => .num (mkRat n 1)
      | none => .nan
    else if x == 'o' || x == 'O' then
      match radixNat 8 octVal rest with
      | some n => .num (mkRat n 1)
      | none => .nan
    else if x == 'b' || x == 'B' then
      match radixNat 2 binVal rest with
      | some n => .num (mkRat n 1)
      | none => .nan
    else jsDecimal false ('0' :: x :: rest)
  | '+' :: t => jsDecimal false t
  | '-' :: t => jsDecimal true t
  | cs => jsDecimal false cs

/-- Result of a volume endpoint request. -/
inductive VolOut
  | okSet (id : String) (v : ℚ)
  | okRead (id : String) (v : Int)
  | errV (msg : String)
deriving DecidableEq

/-- The read-average loop of the volume endpoint: per member, resolve the
device by host (an unresolved device makes the subsequent property access
throw inside the member's own catch — no call is made) and query its volume;
throws are excluded. -/
def volReadLoop (env : Env) : List MemberOut → List Int × List NetOp
  | [] => ([], [])
  | m :: rest =>
    match env.devices.find? (fun d => d.Host == m.host) with
    | none => volReadLoop env rest
    | some _ =>
      let r := volReadLoop env rest
      match env.getVolume m.host with
      | some v => (v :: r.1, .getVol m.host :: r.2)
      | none => (r.1, .getVol m.host :: r.2)

/-- The set loop of the volume endpoint: per member, resolve the device by host
and issue `SetVolume` (optional chaining skips an unresolved device silently;
call failures are swallowed by the member's catch). -/
def volSetLoop (env : Env) (v : ℚ) : List MemberOut → List NetOp
  | [] => []
  | m :: rest =>
    match env.devices.find? (fun d => d.Host == m.host) with
    | none => volSetLoop env v rest
    | some _ => .setVol m.host v :: volSetLoop env v rest

/--
Embedding of the volume endpoint handler (sonos-router.js lines 508–566).

Source shape: refresh the registry, rebuild the full group listing (so the
group's members are known), and resolve the group; only then, when a `level`
was supplied, convert it with `Number` and apply
`isNaN(v) || v < 0 || v > 100`: `NaN` fails `isNaN`, `Infinity` fails
`v > 100`, `-Infinity` fails `v < 0`, a finite value fails only the range —
the rejection happens after the listing's network traffic but before any
`SetVolume` call; an accepted level is written to every member.  Without a
`level`, the members' volumes are re-queried and averaged.
-/
def volumeHandler (env : Env) (groupId : Option String) (level : Option String) :
    VolOut × List NetOp :=
  let b := buildGroupsFull env
  let ops1 := b.2.2
  match b.1.find? (fun g => match groupId with | some s => g.id == s | none => false) with
  | none => (.errV ("Group not found: " ++ jsInterp groupId), ops1)
  | some group =>
    match level with
    | some l =>
      match jsNumber l with
      | .nan => (.errV "Volume must be 0–100", ops1)
      | .posInf => (.errV "Volume must be 0–100", ops1)
      | .negInf => (.errV "Volume must be 0–100", ops1)
      | .num v =>
        if v < 0 || 100 < v then (.errV "Volume must be 0–100", ops1)
        else (.okSet group.id v, ops1 ++ volSetLoop env v group.members)
    | none =>
      let r := volReadLoop env group.members
      (.okRead group.id (avgVol r.1), ops1 ++ r.2)

/-! ## The device registry (`ensureManager`)

`ensureManager` runs on a single-threaded cooperative event loop; its execution
splits into atomic segments at its `await`s.  Segment A covers the entry check
and, when refreshing, the replacement of the module-level `manager` (which
happens synchronously before the first `await`) and the start of the discovery
pass; segment B covers completion: `lastDiscover = now` (the `now` captured at
the call's entry) and `return manager` — a read of the module-level variable at
return time.  The intermediate `await`s of the registration handshakes are
collapsed into the single yield between A and B, which preserves all
interleavings of the two-call scenarios considered. -/

/-- Module-level registry state: the cached manager (identified by a creation
counter), the last discovery timestamp, the creation counter, and the total
number of discovery passes started. -/
structure RegState where
  mgr : Option Nat
  lastDiscover : Nat
  nextId : Nat
  discoveries : Nat
deriving DecidableEq

/-- The freshness window (60 000 ms). -/
def freshWindowMs : Nat := 60000

/-- The initial module state: no manager, `lastDiscover = 0`. -/
def regInit : RegState := { mgr := none, lastDiscover := 0, nextId := 0, discoveries := 0 }

/-- Segment A of `ensureManager(force)` entered at time `now`: on a fresh
non-forced hit return the cached manager (`some result`); otherwise replace the
module-level manager with a new one, count a discovery pass, and yield
(`none`). -/
def regStepA (force : Bool) (now : Nat) (st : RegState) : RegState × Option (Option Nat) :=
  if !force && st.mgr.isSome && now - st.lastDiscover < freshWindowMs then
    (st, some st.mgr)
  else
    ({ mgr := some st.nextId, lastDiscover := st.lastDiscover,
       nextId := st.nextId + 1, discoveries := st.discoveries + 1 }, none)

/-- Segment B of `ensureManager` for a call entered at time `now`: record the
discovery time and return the module-level manager as it stands now. -/
def regStepB (now : Nat) (st : RegState) : RegState × Option Nat :=
  ({ st with lastDiscover := now }, st.mgr)

/-- Two concurrent non-forced `ensureManager` calls from the initial state: P
enters at `tP`; Q enters at `tQ` while P's discovery is still in flight (both A
segments run before either B segment — the overlap schedules); `pFinishesFirst`
selects the order of the completions.  Returns the final module state and both
calls' results. -/
def runOverlap (tP tQ : Nat) (pFinishesFirst : Bool) : RegState × Option Nat × Option Nat :=
  match regStepA false tP regInit with
  | (st1, some rP) =>
    match regStepA false tQ st1 with
    | (st2, some rQ) => (st2, rP, rQ)
    | (st2, none) =>
      let r := regStepB tQ st2
      (r.1, rP, r.2)
  | (st1, none) =>
    match regStepA false tQ st1 with
    | (st2, some rQ) =>
      let r := regStepB tP st2
      (r.1, r.2, rQ)
    | (st2, none) =>
      if pFinishesFirst then
        let r3 := regStepB tP st2
        let r4 := regStepB tQ r3.1
        (r4.1, r3.2, r4.2)
      else
        let r3 := regStepB tQ st2
        let r4 := regStepB tP r3.1
        (r4.1, r4.2, r3.2)

/-! ## Concrete environments for counterexamples and witnesses -/

/-- A placeholder group (used only as the irrelevant default of `List.headD`). -/
def anyGroup : GroupOut :=
  { id := "", name := "", coordinator := "", status := "", track := initTrack,
    avgVolume := 0, members := [] }

/-- Is this network operation a volume-set action? -/
def isSetVol : NetOp → Bool
  | .setVol _ _ => true
  | _ => false

/-- One coordinator whose position metadata carries an album-art URI with a
malformed percent escape (`%zz`), making the artwork-cache canonicalization
throw. -/
def envC1 : Env :=
  { devices := [⟨"RINCON_A", "10.0.0.5"⟩],
    topology := [("RINCON_A", [⟨"Room", "10.0.0.5", "RINCON_A"⟩])],
    posInfo := fun _ => some
      { TrackURI := some "x-sonosapi-queue:abc",
        TrackMetaData := some
          "<DIDL-Lite><item><upnp:albumArtURI>http://a/%zz</upnp:albumArtURI></item></DIDL-Lite>" },
    transportInfo := fun _ => some (some "PLAYING"),
    mediaInfo := fun _ => none,
    oembed := fun _ => none,
    streamMeta := fun _ => none,
    getVolume := fun _ => none,
    fetchArt := fun _ => .throwEx,
    diskInit := [] }

/-- One coordinator whose position metadata titles the track `"A"` while its
media metadata titles it `"B"`. -/
def envC2 : Env :=
  { devices := [⟨"RINCON_A", "10.0.0.5"⟩],
    topology := [("RINCON_A", [⟨"Room", "10.0.0.5", "RINCON_A"⟩])],
    posInfo := fun _ => some
      { TrackURI := some "x-sonosapi-queue:abc",
        TrackMetaData := some "<DIDL-Lite><item><dc:title>A</dc:title></item></DIDL-Lite>" },
    transportInfo := fun _ => some (some "PLAYING"),
    mediaInfo := fun _ => some
      { CurrentURIMetaData := some "<DIDL-Lite><item><dc:title>B</dc:title></item></DIDL-Lite>",
        EnqueuedTransportURIMetaData := none },
    oembed := fun _ => none,
    streamMeta := fun _ => none,
    getVolume := fun _ => none,
    fetchArt := fun _ => .throwEx,
    diskInit := [] }

/-- One coordinator and one member whose volume queries succeed, for the
volume-endpoint scenarios. -/
def envC5 : Env :=
  { devices := [⟨"RINCON_A", "10.0.0.5"⟩],
    topology := [("RINCON_A", [⟨"Room", "10.0.0.5", "RINCON_A"⟩])],
    posInfo := fun _ => none,
    transportInfo := fun _ => none,
    mediaInfo := fun _ => none,
    oembed := fun _ => none,
    streamMeta := fun _ => none,
    getVolume := fun _ => some 30,
    fetchArt := fun _ => .throwEx,
    diskInit := [] }

/-- Two members answering volumes 30 and 41, for the volume-averaging
witness. -/
def envC6 : Env :=
  { devices := [⟨"RINCON_A", "10.0.0.5"⟩, ⟨"RINCON_B", "10.0.0.6"⟩],
    topology := [("RINCON_A",
      [⟨"Room", "10.0.0.5", "RINCON_A"⟩, ⟨"Den", "10.0.0.6", "RINCON_B"⟩])],
    posInfo := fun _ => none,
    transportInfo := fun _ => none,
    mediaInfo := fun _ => none,
    oembed := fun _ => none,
    streamMeta := fun _ => none,
    getVolume := fun h => if h == "10.0.0.5" then some 30 else some 41,
    fetchArt := fun _ => .throwEx,
    diskInit := [] }

/-- A play dispatch whose first attempt fails with the recoverable error and
whose retry succeeds. -/
def envPlay : PlayEnv :=
  { devices := [⟨"RINCON_A", "10.0.0.5"⟩, ⟨"RINCON_B", "10.0.0.6"⟩],
    play1 := .playFail "UPnPError 402: incompatible transport URI",
    play2 := .playOk }

/-! ## Helper lemmas -/

set_option maxRecDepth 100000

theorem startsWithL_nil (s : List Char) : startsWithL s [] = true := by
  cases s <;> rfl

theorem startsWithL_append (p r : List Char) : startsWithL (p ++ r) p = true := by
  induction p with
  | nil => exact startsWithL_nil r
  | cons c cs ih => simp [startsWithL, ih]

theorem strStartsWith_append (p r : String) : strStartsWith (p ++ r) p = true := by
  simp only [strStartsWith, String.data_append]
  exact startsWithL_append p.data r.data

/-- Evaluation of `parseTrackMeta` on markup containing the `<DIDL-Lite` root. -/
theorem parseTrackMeta_didl {x : String} (host : String)
    (hD : strContains (unescapeXml x) "<DIDL-Lite" = true) :
    parseTrackMeta (some x) host = some (metaOfDecoded (unescapeXml x) host) := by
  simp only [parseTrackMeta]
  rw [hD]
  rfl

theorem cacheArtwork_guard {u : String} (fetch : String → FetchOutcome) (st : CacheDisk)
    (h : strStartsWith u "http" = false) :
    cacheArtwork fetch st (some u) = (none, st, 0) := by
  unfold cacheArtwork
  simp [h]

theorem cacheArtwork_decodeFail {u : String} (fetch : String → FetchOutcome) (st : CacheDisk)
    (h1 : strStartsWith u "http" = true) (h2 : canonicalArt u = none) :
    cacheArtwork fetch st (some u) = (none, st, 0) := by
  unfold cacheArtwork
  simp [h1, h2]

theorem cacheArtwork_hit {u c : String} (fetch : String → FetchOutcome) (st : CacheDisk)
    (h1 : strStartsWith u "http" = true) (h2 : canonicalArt u = some c)
    (h3 : List.contains st (md5hex c ++ ".jpg") = true) :
    cacheArtwork fetch st (some u) =
      (some ("/runtime/cache/artwork/" ++ (md5hex c ++ ".jpg")), st, 0) := by
  have h3' : md5hex c ++ ".jpg" ∈ st := by simpa using h3
  unfold cacheArtwork
  simp [h1, h2, h3']

theorem cacheArtwork_missOk {u c : String} (fetch : String → FetchOutcome) (st : CacheDisk)
    (h1 : strStartsWith u "http" = true) (h2 : canonicalArt u = some c)
    (h3 : List.contains st (md5hex c ++ ".jpg") = false) (h4 : fetch c = FetchOutcome.ok) :
    cacheArtwork fetch st (some u) =
      (some ("/runtime/cache/artwork/" ++ (md5hex c ++ ".jpg")), (md5hex c ++ ".jpg") :: st, 1) := by
  have h3' : md5hex c ++ ".jpg" ∉ st := by simpa using h3
  unfold cacheArtwork
  simp [h1, h2, h3', h4]

theorem cacheArtwork_missErr {u c : String} {s : Nat} (fetch : String → FetchOutcome)
    (st : CacheDisk)
    (h1 : strStartsWith u "http" = true) (h2 : canonicalArt u = some c)
    (h3 : List.contains st (md5hex c ++ ".jpg") = false)
    (h4 : fetch c = FetchOutcome.httpErr s) :
    cacheArtwork fetch st (some u) =
      (some ("/runtime/cache/artwork/" ++ (md5hex c ++ ".jpg")), st, 1) := by
  have h3' : md5hex c ++ ".jpg" ∉ st := by simpa using h3
  unfold cacheArtwork
  simp [h1, h2, h3', h4]

theorem cacheArtwork_missThrow {u c : String} (fetch : String → FetchOutcome) (st : CacheDisk)
    (h1 : strStartsWith u "http" = true) (h2 : canonicalArt u = some c)
    (h3 : List.contains st (md5hex c ++ ".jpg") = false)
    (h4 : fetch c = FetchOutcome.throwEx) :
    cacheArtwork fetch st (some u) = (none, st, 1) := by
  have h3' : md5hex c ++ ".jpg" ∉ st := by simpa using h3
  unfold cacheArtwork
  simp [h1, h2, h3', h4]

/-- A successful `cacheArtwork` result is always a path under the artwork cache
namespace. -/
theorem cacheArtwork_some {fetch : String → FetchOutcome} {st : CacheDisk}
    {u : Option String} {p : String} (h : (cacheArtwork fetch st u).1 = some p) :
    strStartsWith p "/runtime/cache/artwork/" = true := by
  cases u with
  | none => simp [cacheArtwork] at h
  | some v =>
    by_cases h1 : strStartsWith v "http"
    · cases h2 : canonicalArt v with
      | none => rw [cacheArtwork_decodeFail fetch st h1 h2] at h; cases h
      | some c =>
        by_cases h3 : List.contains st (md5hex c ++ ".jpg")
        · rw [cacheArtwork_hit fetch st h1 h2 h3] at h
          cases h
          exact strStartsWith_append _ _
        · cases h4 : fetch c with
          | ok =>
            rw [cacheArtwork_missOk fetch st h1 h2 (by simpa using h3) h4] at h
            cases h
            exact strStartsWith_append _ _
          | httpErr s =>
            rw [cacheArtwork_missErr fetch st h1 h2 (by simpa using h3) h4] at h
            cases h
            exact strStartsWith_append _ _
          | throwEx =>
            rw [cacheArtwork_missThrow fetch st h1 h2 (by simpa using h3) h4] at h
            cases h
    · rw [cacheArtwork_guard fetch st (by simpa using h1)] at h
      cases h

/-- A `null` result of `cacheArtwork` on a present input comes from a non-http
input, a canonicalization throw, or a fetch throw. -/
theorem cacheArtwork_none_cases {fetch : String → FetchOutcome} {st : CacheDisk}
    {a : String} (h : (cacheArtwork fetch st (some a)).1 = none) :
    strStartsWith a "http" = false ∨ canonicalArt a = none ∨
      ∃ c, canonicalArt a = some c ∧ fetch c = FetchOutcome.throwEx := by
  by_cases h1 : strStartsWith a "http"
  · cases h2 : canonicalArt a with
    | none => exact Or.inr (Or.inl rfl)
    | some c =>
      by_cases h3 : List.contains st (md5hex c ++ ".jpg")
      · rw [cacheArtwork_hit fetch st h1 h2 h3] at h; cases h
      · cases h4 : fetch c with
        | ok => rw [cacheArtwork_missOk fetch st h1 h2 (by simpa using h3) h4] at h; cases h
        | httpErr s =>
          rw [cacheArtwork_missErr fetch st h1 h2 (by simpa using h3) h4] at h; cases h
        | throwEx => exact Or.inr (Or.inr ⟨c, rfl, h4⟩)
  · exact Or.inl (by simpa using h1)

/-! ## Claim theorems -/

/-- Claim C4, counterexample: for a URI whose fetch answers with a non-ok
status (HTTP 404 both times), two `cacheArtwork` calls on the very same URI
perform two remote fetches in total — the claimed "at most one remote fetch in
total" is false (a failed fetch is not negatively cached, so the second call
fetches again). -/
theorem claim_C4_counterexample :
    (cacheTwice (fun _ => FetchOutcome.httpErr 404) (fun _ => FetchOutcome.httpErr 404)
      [] (some "http://a/img.jpg")).2.2 = 2 ∧
    ¬ (cacheTwice (fun _ => FetchOutcome.httpErr 404) (fun _ => FetchOutcome.httpErr 404)
      [] (some "http://a/img.jpg")).2.2 ≤ 1 := by
  constructor
  · decide
  · decide

/-- Claim C4, amended: provided any fetch the first call performs succeeds
(HTTP ok), two `cacheArtwork` calls with the same URI — each with its own,
independent fetch outcome — perform at most one remote fetch in total and
return identical results (the identical local path when one exists); a non-ok
or throwing fetch is not cached as a negative result, which is why the
success proviso is needed. -/
theorem claim_C4 (fetch1 fetch2 : String → FetchOutcome) (st : CacheDisk)
    (uri : Option String) (h : ∀ s, fetch1 s = FetchOutcome.ok) :
    (cacheTwice fetch1 fetch2 st uri).2.2 ≤ 1 ∧
    (cacheTwice fetch1 fetch2 st uri).1 = (cacheTwice fetch1 fetch2 st uri).2.1 := by
  unfold cacheTwice
  cases uri with
  | none => simp [cacheArtwork]
  | some u =>
    by_cases h1 : strStartsWith u "http"
    · cases h2 : canonicalArt u with
      | none =>
        rw [cacheArtwork_decodeFail fetch1 st h1 h2]
        rw [cacheArtwork_decodeFail fetch2 st h1 h2]
        simp
      | some c =>
        by_cases h3 : List.contains st (md5hex c ++ ".jpg")
        · rw [cacheArtwork_hit fetch1 st h1 h2 h3]
          rw [cacheArtwork_hit fetch2 st h1 h2 h3]
          simp
        · rw [cacheArtwork_missOk fetch1 st h1 h2 (by simpa using h3) (h c)]
          rw [cacheArtwork_hit fetch2 _ h1 h2 (by simp [List.contains_cons])]
          simp
    · rw [cacheArtwork_guard fetch1 st (by simpa using h1)]
      rw [cacheArtwork_guard fetch2 st (by simpa using h1)]
      simp

/-- Claim C4, witness of the amended theorem at a concrete input; the second
call's (never-performed) fetch would even throw, showing the independence of
the two calls' outcomes. -/
theorem claim_C4_witness :
    (cacheTwice (fun _ => FetchOutcome.ok) (fun _ => FetchOutcome.throwEx)
      [] (some "http://a/img.jpg")).2.2 ≤ 1 ∧
    (cacheTwice (fun _ => FetchOutcome.ok) (fun _ => FetchOutcome.throwEx)
      [] (some "http://a/img.jpg")).1 =
      (cacheTwice (fun _ => FetchOutcome.ok) (fun _ => FetchOutcome.throwEx)
        [] (some "http://a/img.jpg")).2.1 :=
  claim_C4 (fun _ => FetchOutcome.ok) (fun _ => FetchOutcome.throwEx)
    [] (some "http://a/img.jpg") (fun _ => rfl)

/-- Claim C9: for an http-prefixed URI, (a) a fetch completing with a non-ok
status writes nothing to the cache while `cacheArtwork` still returns the
hash-derived local path (which then refers to a file not on disk), and (b) the
result is `null` exactly when an exception was thrown — the canonicalization
(`decodeURIComponent`) failing, or the fetch itself throwing on an uncached
URI. -/
theorem claim_C9 (fetch : String → FetchOutcome) (st : CacheDisk) (u : String)
    (hu : strStartsWith u "http" = true) :
    (∀ c s, canonicalArt u = some c → List.contains st (md5hex c ++ ".jpg") = false →
      fetch c = FetchOutcome.httpErr s →
      (cacheArtwork fetch st (some u)).1 =
        some ("/runtime/cache/artwork/" ++ (md5hex c ++ ".jpg")) ∧
      (cacheArtwork fetch st (some u)).2.1 = st) ∧
    ((cacheArtwork fetch st (some u)).1 = none ↔
      canonicalArt u = none ∨ ∃ c, canonicalArt u = some c ∧
        List.contains st (md5hex c ++ ".jpg") = false ∧ fetch c = FetchOutcome.throwEx) := by
  constructor
  · intro c s hc hd hf
    rw [cacheArtwork_missErr fetch st hu hc hd hf]
    exact ⟨rfl, rfl⟩
  · constructor
    · intro h
      rcases cacheArtwork_none_cases h with h' | h' | ⟨c, hc, hf⟩
      · rw [hu] at h'; cases h'
      · exact Or.inl h'
      · refine Or.inr ⟨c, hc, ?_, hf⟩
        by_cases h3 : List.contains st (md5hex c ++ ".jpg")
        · rw [cacheArtwork_hit fetch st hu hc h3] at h; cases h
        · simpa using h3
    · rintro (hc | ⟨c, hc, hd, hf⟩)
      · rw [cacheArtwork_decodeFail fetch st hu hc]
      · rw [cacheArtwork_missThrow fetch st hu hc hd hf]

/-- Claim C9, witness at a concrete input: a 404 fetch writes nothing yet the
hash path is returned. -/
theorem claim_C9_witness :
    strStartsWith "http://a/img.jpg" "http" = true ∧
    (cacheArtwork (fun _ => FetchOutcome.httpErr 404) [] (some "http://a/img.jpg")).1 =
      some ("/runtime/cache/artwork/" ++ (md5hex "http://a/img.jpg" ++ ".jpg")) ∧
    (cacheArtwork (fun _ => FetchOutcome.httpErr 404) [] (some "http://a/img.jpg")).2.1 = [] :=
  ⟨by decide,
   ((claim_C9 (fun _ => FetchOutcome.httpErr 404) [] "http://a/img.jpg" (by decide)).1
      "http://a/img.jpg" 404 (by decide) (by decide) rfl).1,
   ((claim_C9 (fun _ => FetchOutcome.httpErr 404) [] "http://a/img.jpg" (by decide)).1
      "http://a/img.jpg" 404 (by decide) (by decide) rfl).2⟩

/-- Claim C7, counterexample: the spec's exact fragment
`<dc:title>Foo</dc:title><dc:creator>Bar</dc:creator>` (entity-escaped) lacks a
`<DIDL-Lite` root, so `parseTrackMeta` short-circuits to the empty parse result
and the assembled track's title stays `""`, not `"Foo"`. -/
theorem claim_C7_counterexample :
    parseTrackMeta
      (some "&lt;dc:title&gt;Foo&lt;/dc:title&gt;&lt;dc:creator&gt;Bar&lt;/dc:creator&gt;")
      "10.0.0.5" = none ∧
    (spreadMeta initTrack (parseTrackMeta
      (some "&lt;dc:title&gt;Foo&lt;/dc:title&gt;&lt;dc:creator&gt;Bar&lt;/dc:creator&gt;")
      "10.0.0.5")).title = some "" ∧
    (some "" : Option String) ≠ some "Foo" := by
  refine ⟨by decide, by decide, by decide⟩

/-- Claim C7, amended: wrapped in the `DIDL-Lite`/`item` envelope the parser
requires, the entity-escaped markup resolves to title `"Foo"` and artist
`"Bar"`. -/
theorem claim_C7 :
    parseTrackMeta
      (some "&lt;DIDL-Lite&gt;&lt;item&gt;&lt;dc:title&gt;Foo&lt;/dc:title&gt;&lt;dc:creator&gt;Bar&lt;/dc:creator&gt;&lt;/item&gt;&lt;/DIDL-Lite&gt;")
      "10.0.0.5" =
      some { title := "Foo", artist := "Bar", album := "", artwork := none } ∧
    (spreadMeta initTrack (parseTrackMeta
      (some "&lt;DIDL-Lite&gt;&lt;item&gt;&lt;dc:title&gt;Foo&lt;/dc:title&gt;&lt;dc:creator&gt;Bar&lt;/dc:creator&gt;&lt;/item&gt;&lt;/DIDL-Lite&gt;")
      "10.0.0.5")).title = some "Foo" ∧
    (spreadMeta initTrack (parseTrackMeta
      (some "&lt;DIDL-Lite&gt;&lt;item&gt;&lt;dc:title&gt;Foo&lt;/dc:title&gt;&lt;dc:creator&gt;Bar&lt;/dc:creator&gt;&lt;/item&gt;&lt;/DIDL-Lite&gt;")
      "10.0.0.5")).artist = some "Bar" := by
  refine ⟨by decide, by decide, by decide⟩

/-- Claim C10: when the parsed item carries a non-empty stream-content field,
the parser's title is that stream-content value, regardless of the (also
present, non-empty) standard title field. -/
theorem claim_C10 (x host s t : String)
    (hD : strContains (unescapeXml x) "<DIDL-Lite" = true)
    (hS : fieldOf (itemRegion (unescapeXml x)) "r:streamContent" = some s)
    (hs : s ≠ "")
    (hT : fieldOf (itemRegion (unescapeXml x)) "dc:title" = some t)
    (ht : t ≠ "") :
    ∃ m, parseTrackMeta (some x) host = some m ∧ m.title = s := by
  refine ⟨metaOfDecoded (unescapeXml x) host, parseTrackMeta_didl host hD, ?_⟩
  have hTitle : (metaOfDecoded (unescapeXml x) host).title =
      jsOrStr (fieldOf (itemRegion (unescapeXml x)) "r:streamContent")
        (fieldOf (itemRegion (unescapeXml x)) "dc:title") := rfl
  rw [hTitle, hS, hT]
  simp [jsOrStr, truthy, hs]

/-- Claim C10, witness: a concrete fragment with both fields non-empty. -/
theorem claim_C10_witness :
    ∃ m, parseTrackMeta
      (some "&lt;DIDL-Lite&gt;&lt;item&gt;&lt;r:streamContent&gt;Now On Air&lt;/r:streamContent&gt;&lt;dc:title&gt;station&lt;/dc:title&gt;&lt;/item&gt;&lt;/DIDL-Lite&gt;")
      "10.0.0.5" = some m ∧ m.title = "Now On Air" :=
  claim_C10
    "&lt;DIDL-Lite&gt;&lt;item&gt;&lt;r:streamContent&gt;Now On Air&lt;/r:streamContent&gt;&lt;dc:title&gt;station&lt;/dc:title&gt;&lt;/item&gt;&lt;/DIDL-Lite&gt;"
    "10.0.0.5" "Now On Air" "station" (by decide) (by decide) (by decide)
    (by decide) (by decide)

/-- Claim C3: against a resolved coordinator, a first `Play` success is a
single attempt; a first failure matching `/UPnPError 402/i` rebinds every
known device's transport URI to the coordinator (`x-rincon:<coordinator
Uuid>` — the `coord.uuid` read hits the runtime backing field of the `Uuid`
getter) and retries `Play` exactly once, returning ok on retry success and the
(persisting) error on retry failure; any other first failure propagates
immediately with no rebind and no retry. -/
theorem claim_C3 (env : PlayEnv) (gid : String) (coord : Device)
    (hfind : env.devices.find? (fun d => d.Uuid == gid) = some coord) :
    (env.play1 = PlayRes.playOk →
      playHandler env (some gid) = (DispatchOut.okD "play" gid, [TransportAct.playAct])) ∧
    (∀ msg, env.play1 = PlayRes.playFail msg → containsCI msg "UPnPError 402" = true →
      (playHandler env (some gid)).2 =
        TransportAct.playAct ::
          env.devices.map
            (fun d => TransportAct.setURIAct d.Host ("x-rincon:" ++ coord.Uuid)) ++
          [TransportAct.playAct] ∧
      (env.play2 = PlayRes.playOk →
        (playHandler env (some gid)).1 = DispatchOut.okD "play" gid) ∧
      (env.play2 = PlayRes.playFail msg →
        (playHandler env (some gid)).1 = DispatchOut.errD msg)) ∧
    (∀ msg, env.play1 = PlayRes.playFail msg → containsCI msg "UPnPError 402" = false →
      playHandler env (some gid) = (DispatchOut.errD msg, [TransportAct.playAct])) := by
  refine ⟨?_, ?_, ?_⟩
  · intro h1
    simp [playHandler, hfind, h1]
  · intro msg h1 h402
    refine ⟨?_, ?_, ?_⟩
    · cases h2 : env.play2 <;>
        simp [playHandler, hfind, h1, h402, h2, Device.uuidRuntime]
    · intro h2
      simp [playHandler, hfind, h1, h402, h2]
    · intro h2
      simp [playHandler, hfind, h1, h402, h2]
  · intro msg h1 h402
    simp [playHandler, hfind, h1, h402]

/-- Claim C3, witness: the recoverable error with a successful retry, at a
concrete two-device topology — every device is rebound to
`x-rincon:RINCON_A`. -/
theorem claim_C3_witness :
    (playHandler envPlay (some "RINCON_A")).2 =
      TransportAct.playAct ::
        envPlay.devices.map
          (fun d => TransportAct.setURIAct d.Host
            ("x-rincon:" ++ (⟨"RINCON_A", "10.0.0.5"⟩ : Device).Uuid)) ++
        [TransportAct.playAct] ∧
    (playHandler envPlay (some "RINCON_A")).1 = DispatchOut.okD "play" "RINCON_A" :=
  ⟨((claim_C3 envPlay "RINCON_A" ⟨"RINCON_A", "10.0.0.5"⟩ (by decide)).2.1
      "UPnPError 402: incompatible transport URI" rfl (by decide)).1,
   ((claim_C3 envPlay "RINCON_A" ⟨"RINCON_A", "10.0.0.5"⟩ (by decide)).2.1
      "UPnPError 402: incompatible transport URI" rfl (by decide)).2.1 rfl⟩

/-- Claim C8, counterexample: two concurrent non-forced `ensureManager` calls
overlapping an in-flight refresh (the second enters while the first's
discovery is awaited) run two discovery passes — there is no single-flight
pending-operation guard, so "at most one discovery pass runs in total" is
false. -/
theorem claim_C8_counterexample :
    (runOverlap 100000 100001 true).1.discoveries = 2 ∧
    ¬ (runOverlap 100000 100001 true).1.discoveries ≤ 1 := by
  refine ⟨by decide, by decide⟩

/-- Claim C8, amended: two concurrent non-forced calls overlapping an in-flight
refresh from the initial state (with a realistic clock, i.e. the second call's
entry time at or past the freshness window) each start their own discovery pass
— two in total — while both calls do return the identical device snapshot: the
module-level manager created by the later pass. -/
theorem claim_C8 (tP tQ : Nat) (b : Bool) (hQ : freshWindowMs ≤ tQ) :
    (runOverlap tP tQ b).1.discoveries = 2 ∧
    (runOverlap tP tQ b).2.1 = (runOverlap tP tQ b).2.2 ∧
    (runOverlap tP tQ b).2.1 = some 1 := by
  have h1 : regStepA false tP regInit =
      ({ mgr := some 0, lastDiscover := 0, nextId := 1, discoveries := 1 }, none) := by
    simp [regStepA, regInit]
  have h2 : regStepA false tQ
      ({ mgr := some 0, lastDiscover := 0, nextId := 1, discoveries := 1 } : RegState) =
      ({ mgr := some 1, lastDiscover := 0, nextId := 2, discoveries := 2 }, none) := by
    simp only [regStepA]
    rw [if_neg (by simp; omega)]
  unfold runOverlap
  rw [h1]
  cases b <;> simp [h2, regStepB]

/-- Claim C8, witness of the amended theorem at concrete times. -/
theorem claim_C8_witness :
    freshWindowMs ≤ 60000 ∧
    ((runOverlap 5 60000 true).1.discoveries = 2 ∧
     (runOverlap 5 60000 true).2.1 = (runOverlap 5 60000 true).2.2 ∧
     (runOverlap 5 60000 true).2.1 = some 1) :=
  ⟨by decide, claim_C8 5 60000 true (by decide)⟩

/-- Claim C2, counterexample: in `envC2` stage 2A resolves the title to `"A"`
(non-empty), yet the group listing's final title is `"B"` — the media-info
stage overwrote a non-empty earlier value, because its guard `if (meta.title)`
tests the new value, not the old one. -/
theorem claim_C2_counterexample :
    (buildGroups envC2).map (fun g => g.track.title) = [some "B"] ∧
    (stage2A envC2 ⟨"RINCON_A", "10.0.0.5"⟩ initTrack).1.title = some "A" ∧
    (some "B" : Option String) ≠ some "A" := by
  refine ⟨by decide, by decide, by decide⟩

/-- Claim C2, amended: the media-info stage sets each of title/artist/album to
the media metadata's value whenever that value is non-empty — overwriting any
earlier value — and keeps the earlier value only when the media value is empty;
likewise artwork for truthiness; uri and source are untouched. -/
theorem claim_C2 (t : Track) (m : TrackMeta) :
    (mergeMediaMeta t (some m)).title = (if m.title = "" then t.title else some m.title) ∧
    (mergeMediaMeta t (some m)).artist = (if m.artist = "" then t.artist else some m.artist) ∧
    (mergeMediaMeta t (some m)).album = (if m.album = "" then t.album else some m.album) ∧
    (mergeMediaMeta t (some m)).artwork = (if truthy m.artwork then m.artwork else t.artwork) ∧
    (mergeMediaMeta t (some m)).uri = t.uri ∧
    (mergeMediaMeta t (some m)).source = t.source := by
  unfold mergeMediaMeta
  by_cases h1 : m.title = "" <;> by_cases h2 : m.artist = "" <;>
    by_cases h3 : m.album = "" <;> by_cases h4 : truthy m.artwork <;>
      simp [h1, h2, h3, h4]

/-- The members/volumes/average of an assembled group come from `stage2H`, and
its track from `stage2G`. -/
theorem buildGroup_shape {env : Env} {st : CacheDisk} {cid : String}
    {ms : List Member} {g : GroupOut}
    (h : (buildGroup env st cid ms).1 = some g) :
    (∃ st' t, g.track = (stage2G env st' t).1) ∧
    g.members = (stage2H env ms).1 ∧ g.avgVolume = avgVol (stage2H env ms).2.1 := by
  unfold buildGroup at h
  cases hf : env.devices.find? (fun d => d.Uuid == cid) with
  | none => rw [hf] at h; cases h
  | some coord =>
    rw [hf] at h
    simp only [Option.some.injEq] at h
    subst h
    exact ⟨⟨st, _, rfl⟩, rfl, rfl⟩

/-- Every group of a listing is produced by `buildGroup` at some cache state. -/
theorem mem_buildGroupsFrom {env : Env} {g : GroupOut} :
    ∀ {l : List (String × List Member)} {st : CacheDisk},
      g ∈ (buildGroupsFrom env l st).1 →
      ∃ st' cid ms, (buildGroup env st' cid ms).1 = some g := by
  intro l
  induction l with
  | nil => intro st h; simp [buildGroupsFrom] at h
  | cons e rest ih =>
    intro st h
    obtain ⟨cid, ms⟩ := e
    cases hb : (buildGroup env st cid ms).1 with
    | some g' =>
      simp only [buildGroupsFrom, hb] at h
      rcases List.mem_cons.mp h with h' | h'
      · subst h'; exact ⟨st, cid, ms, hb⟩
      · exact ih h'
    | none =>
      simp only [buildGroupsFrom, hb] at h
      exact ih h

/-- A string under the cache namespace is truthy (non-empty). -/
theorem truthy_of_cachePath {p : String}
    (h : strStartsWith p "/runtime/cache/artwork/" = true) :
    truthy (some p) = true := by
  by_cases hp : p = ""
  · subst hp; exact absurd h (by decide)
  · simp [truthy, hp]

/-- The artwork of a track after the cache stage: either a cache path, or the
pre-stage value kept because `cacheArtwork` returned `null` on it. -/
theorem stage2G_artwork {env : Env} {st : CacheDisk} {t : Track} {a : String}
    (ha : ((stage2G env st t).1).artwork = some a) :
    strStartsWith a "/runtime/cache/artwork/" = true ∨
    strStartsWith a "http" = false ∨ canonicalArt a = none ∨
    ∃ c, canonicalArt a = some c ∧ env.fetchArt c = FetchOutcome.throwEx := by
  have ha' : (if truthy (cacheArtwork env.fetchArt st t.artwork).1 = true then
      { t with artwork := (cacheArtwork env.fetchArt st t.artwork).1 }
    else t).artwork = some a := ha
  clear ha
  by_cases htr : truthy (cacheArtwork env.fetchArt st t.artwork).1 = true
  · rw [if_pos htr] at ha'
    exact Or.inl (cacheArtwork_some
      (ha' : (cacheArtwork env.fetchArt st t.artwork).1 = some a))
  · rw [if_neg htr] at ha'
    cases hr : (cacheArtwork env.fetchArt st t.artwork).1 with
    | some p =>
      have := truthy_of_cachePath (cacheArtwork_some hr)
      rw [hr] at htr
      exact absurd this htr
    | none =>
      rw [ha'] at hr
      rcases cacheArtwork_none_cases hr with h | h | h
      · exact Or.inr (Or.inl h)
      · exact Or.inr (Or.inr (Or.inl h))
      · exact Or.inr (Or.inr (Or.inr h))

/-- Claim C1, amended: in every group listing, a non-null resolved artwork is a
local cache path except when `cacheArtwork` returned `null` for it — the value
is not an http URI (e.g. the local TuneIn placeholder), its canonicalization
throws (malformed percent escape), or its fetch throws — in which case the
pre-cache value, possibly a raw remote URL, is exposed unchanged. -/
theorem claim_C1 (env : Env) (g : GroupOut) (hg : g ∈ buildGroups env) (a : String)
    (ha : g.track.artwork = some a) :
    strStartsWith a "/runtime/cache/artwork/" = true ∨
    strStartsWith a "http" = false ∨ canonicalArt a = none ∨
    ∃ c, canonicalArt a = some c ∧ env.fetchArt c = FetchOutcome.throwEx := by
  have hg' : g ∈ (buildGroupsFrom env (dedupeTopo env.topology) env.diskInit).1 := hg
  obtain ⟨st', cid, ms, hb⟩ := mem_buildGroupsFrom hg'
  obtain ⟨⟨st2, t, ht⟩, -, -⟩ := buildGroup_shape hb
  rw [ht] at ha
  exact stage2G_artwork ha

/-- Claim C1, counterexample: `envC1`'s listing exposes the raw remote URL
`http://a/%zz` as the resolved artwork — the cache step threw on the malformed
escape, returned `null`, and the remote URL survived. -/
theorem claim_C1_counterexample :
    (buildGroups envC1).map (fun g => g.track.artwork) = [some "http://a/%zz"] ∧
    strStartsWith "http://a/%zz" "http" = true ∧
    strStartsWith "http://a/%zz" "/runtime/cache/artwork/" = false := by
  refine ⟨by decide, by decide, by decide⟩

/-- Claim C1, witness of the amended theorem at the concrete environment. -/
theorem claim_C1_witness :
    strStartsWith "http://a/%zz" "/runtime/cache/artwork/" = true ∨
    strStartsWith "http://a/%zz" "http" = false ∨
    canonicalArt "http://a/%zz" = none ∨
    ∃ c, canonicalArt "http://a/%zz" = some c ∧ envC1.fetchArt c = FetchOutcome.throwEx :=
  claim_C1 envC1 ((buildGroups envC1).headD anyGroup) (by decide) "http://a/%zz" (by decide)

/-- The volumes collected by the member loop are exactly the non-null volumes
written onto the members — failures are excluded, not zero-filled. -/
theorem stage2H_vols_eq (env : Env) (ms : List Member) :
    ((stage2H env ms).1).filterMap (fun m => m.volume) = (stage2H env ms).2.1 := by
  induction ms with
  | nil => rfl
  | cons m rest ih =>
    unfold stage2H
    cases hf : env.devices.find? (fun d => d.Host == m.host) with
    | none => simp [List.filterMap_cons, ih]
    | some d =>
      cases hv : env.getVolume m.host with
      | some v => simp [List.filterMap_cons, ih]
      | none => simp [List.filterMap_cons, ih]

/-- Every collected volume was reported by some device's volume query. -/
theorem stage2H_vols_bound (env : Env)
    (hvol : ∀ h v, env.getVolume h = some v → 0 ≤ v ∧ v ≤ 100) (ms : List Member) :
    ∀ v ∈ (stage2H env ms).2.1, 0 ≤ v ∧ v ≤ 100 := by
  induction ms with
  | nil => intro v hv; simp [stage2H] at hv
  | cons m rest ih =>
    intro v hv
    unfold stage2H at hv
    cases hf : env.devices.find? (fun d => d.Host == m.host) with
    | none => rw [hf] at hv; exact ih v hv
    | some d =>
      rw [hf] at hv
      cases hq : env.getVolume m.host with
      | some w =>
        rw [hq] at hv
        rcases List.mem_cons.mp hv with h' | h'
        · subst h'; exact hvol m.host v hq
        · exact ih v h'
      | none => rw [hq] at hv; exact ih v hv

/-- The average of the collected volumes: in `[0,100]` when the inputs are,
`0` on no successes, and within half a unit of the true mean (= the mean
rounded to the nearest integer, half rounding up). -/
theorem avgVol_spec (vols : List Int) (h : ∀ v ∈ vols, 0 ≤ v ∧ v ≤ 100) :
    0 ≤ avgVol vols ∧ avgVol vols ≤ 100 ∧
    (vols = [] → avgVol vols = 0) ∧
    (vols ≠ [] →
      2 * (vols.sum - vols.length * avgVol vols) ≤ vols.length ∧
      2 * (vols.length * avgVol vols - vols.sum) ≤ vols.length) := by
  by_cases he : vols = []
  · subst he; simp [avgVol]
  · have hie : ¬ (vols.isEmpty = true) := by simp [he]
    have hn : 0 < (vols.length : ℤ) := by
      exact_mod_cast List.length_pos.mpr he
    have hs0 : 0 ≤ vols.sum := List.sum_nonneg (fun v hv => (h v hv).1)
    have hs1 : vols.sum ≤ (vols.length : ℤ) * 100 := by
      have := List.sum_le_card_nsmul vols 100 (fun v hv => (h v hv).2)
      simpa [nsmul_eq_mul, mul_comm] using this
    have h2n : (0 : ℤ) < 2 * (vols.length : ℤ) := by linarith
    have havg : avgVol vols = (2 * vols.sum + (vols.length : ℤ)) / (2 * (vols.length : ℤ)) := by
      unfold avgVol mathRound2
      rw [if_neg hie, Int.fdiv_eq_ediv _ (by linarith)]
    have hm1 : ((2 * vols.sum + (vols.length : ℤ)) / (2 * (vols.length : ℤ))) *
        (2 * (vols.length : ℤ)) ≤ 2 * vols.sum + (vols.length : ℤ) :=
      (Int.le_ediv_iff_mul_le h2n).mp le_rfl
    have hm2 : 2 * vols.sum + (vols.length : ℤ) <
        ((2 * vols.sum + (vols.length : ℤ)) / (2 * (vols.length : ℤ)) + 1) *
          (2 * (vols.length : ℤ)) :=
      (Int.ediv_lt_iff_lt_mul h2n).mp (lt_add_one _)
    have ha0 : 0 ≤ (2 * vols.sum + (vols.length : ℤ)) / (2 * (vols.length : ℤ)) :=
      (Int.le_ediv_iff_mul_le h2n).mpr (by linarith)
    have ha1 : (2 * vols.sum + (vols.length : ℤ)) / (2 * (vols.length : ℤ)) < 101 :=
      (Int.ediv_lt_iff_lt_mul h2n).mpr (by linarith)
    rw [havg]
    refine ⟨ha0, by linarith, fun hc => absurd hc he, fun _ => ⟨by nlinarith, by nlinarith⟩⟩

/-- Claim C6: in every group listing (with each device reporting a volume in
`[0,100]`), the group average is an integer in `[0,100]`; it is `0` when no
member query succeeded, and otherwise within half a unit of the mean of
exactly the successfully-queried member volumes (failed members being excluded
from the average, not counted as zero — the averaged list is the members'
non-null volumes). -/
theorem claim_C6 (env : Env)
    (hvol : ∀ h v, env.getVolume h = some v → 0 ≤ v ∧ v ≤ 100) :
    ∀ g ∈ buildGroups env,
      0 ≤ g.avgVolume ∧ g.avgVolume ≤ 100 ∧
      (g.members.filterMap (fun m => m.volume) = [] → g.avgVolume = 0) ∧
      (g.members.filterMap (fun m => m.volume) ≠ [] →
        2 * ((g.members.filterMap (fun m => m.volume)).sum -
          (g.members.filterMap (fun m => m.volume)).length * g.avgVolume) ≤
          (g.members.filterMap (fun m => m.volume)).length ∧
        2 * ((g.members.filterMap (fun m => m.volume)).length * g.avgVolume -
          (g.members.filterMap (fun m => m.volume)).sum) ≤
          (g.members.filterMap (fun m => m.volume)).length) := by
  intro g hg
  obtain ⟨st', cid, ms, hb⟩ := mem_buildGroupsFrom
    (hg : g ∈ (buildGroupsFrom env (dedupeTopo env.topology) env.diskInit).1)
  obtain ⟨-, hmem, havg⟩ := buildGroup_shape hb
  rw [hmem, havg, stage2H_vols_eq]
  exact avgVol_spec _ (stage2H_vols_bound env hvol ms)

/-- Claim C6, witness at the concrete environment with member volumes 30 and
41 (average 36 = round 35.5). -/
theorem claim_C6_witness :
    0 ≤ ((buildGroups envC6).headD anyGroup).avgVolume ∧
    ((buildGroups envC6).headD anyGroup).avgVolume ≤ 100 ∧
    ((((buildGroups envC6).headD anyGroup).members.filterMap (fun m => m.volume)) = [] →
      ((buildGroups envC6).headD anyGroup).avgVolume = 0) ∧
    ((((buildGroups envC6).headD anyGroup).members.filterMap (fun m => m.volume)) ≠ [] →
      2 * (((((buildGroups envC6).headD anyGroup).members.filterMap (fun m => m.volume))).sum -
        ((((buildGroups envC6).headD anyGroup).members.filterMap (fun m => m.volume))).length *
          ((buildGroups envC6).headD anyGroup).avgVolume) ≤
        ((((buildGroups envC6).headD anyGroup).members.filterMap (fun m => m.volume))).length ∧
      2 * (((((buildGroups envC6).headD anyGroup).members.filterMap (fun m => m.volume))).length *
          ((buildGroups envC6).headD anyGroup).avgVolume -
        ((((buildGroups envC6).headD anyGroup).members.filterMap (fun m => m.volume))).sum) ≤
        ((((buildGroups envC6).headD anyGroup).members.filterMap (fun m => m.volume))).length) :=
  claim_C6 envC6
    (fun h v hv => by
      simp only [envC6] at hv
      split at hv <;> (injection hv with h'; omega))
    ((buildGroups envC6).headD anyGroup) (by decide)

theorem stage2A_no_setVol (env : Env) (coord : Device) (t : Track) (hs : String) (v : ℚ) :
    NetOp.setVol hs v ∉ (stage2A env coord t).2.2 := by
  unfold stage2A
  cases hp : env.posInfo coord.Uuid
  · simp
  · cases ht : env.transportInfo coord.Uuid <;> simp

theorem stage2B_no_setVol (env : Env) (coord : Device) (t : Track) (hs : String) (v : ℚ) :
    NetOp.setVol hs v ∉ (stage2B env coord t).2 := by
  unfold stage2B
  cases hm : env.mediaInfo coord.Uuid <;> simp

theorem stage2D_no_setVol (env : Env) (t : Track) (hs : String) (v : ℚ) :
    NetOp.setVol hs v ∉ (stage2D env t).2 := by
  simp only [stage2D]
  split
  next => simp
  next =>
    cases hid : spotifyId (t.uri.getD "") with
    | none => simp
    | some id =>
      cases ho : env.oembed id with
      | none => simp [ho]
      | some d => simp [ho]

theorem stage2E_no_setVol (env : Env) (host : String) (t : Track) (hs : String) (v : ℚ) :
    NetOp.setVol hs v ∉ (stage2E env host t).2 := by
  simp only [stage2E]
  split
  next => simp
  next =>
    cases hm : env.streamMeta host with
    | none => simp
    | some mc =>
      split
      all_goals try split
      all_goals simp_all

theorem stage2G_no_setVol (env : Env) (st : CacheDisk) (t : Track) (hs : String) (v : ℚ) :
    NetOp.setVol hs v ∉ (stage2G env st t).2.2 := by
  have hrw : (stage2G env st t).2.2 =
      if (cacheArtwork env.fetchArt st t.artwork).2.2 > 0 then [NetOp.artFetch] else [] := rfl
  rw [hrw]
  split <;> simp

theorem stage2H_no_setVol (env : Env) (ms : List Member) (hs : String) (v : ℚ) :
    NetOp.setVol hs v ∉ (stage2H env ms).2.2 := by
  induction ms with
  | nil => simp [stage2H]
  | cons m rest ih =>
    unfold stage2H
    cases hf : env.devices.find? (fun d => d.Host == m.host)
    · simpa using ih
    · cases hq : env.getVolume m.host <;> simpa using ih

theorem buildGroup_no_setVol (env : Env) (st : CacheDisk) (cid : String) (ms : List Member)
    (hs : String) (v : ℚ) : NetOp.setVol hs v ∉ (buildGroup env st cid ms).2.2 := by
  unfold buildGroup
  cases hf : env.devices.find? (fun d => d.Uuid == cid) with
  | none => simp
  | some coord =>
    simp only [List.mem_append, not_or]
    refine ⟨⟨⟨⟨⟨?_, ?_⟩, ?_⟩, ?_⟩, ?_⟩, ?_⟩
    · exact stage2A_no_setVol env coord initTrack hs v
    · exact stage2B_no_setVol env coord _ hs v
    · exact stage2D_no_setVol env _ hs v
    · exact stage2E_no_setVol env coord.Host _ hs v
    · exact stage2G_no_setVol env st _ hs v
    · exact stage2H_no_setVol env ms hs v

/-- The group-listing rebuild performs no volume-set call. -/
theorem buildGroupsFrom_no_setVol (env : Env) (hs : String) (v : ℚ) :
    ∀ (l : List (String × List Member)) (st : CacheDisk),
      NetOp.setVol hs v ∉ (buildGroupsFrom env l st).2.2 := by
  intro l
  induction l with
  | nil => intro st; simp [buildGroupsFrom]
  | cons e rest ih =>
    intro st
    obtain ⟨cid, ms⟩ := e
    unfold buildGroupsFrom
    simp only [List.mem_append, not_or]
    exact ⟨buildGroup_no_setVol env st cid ms hs v, ih _⟩

theorem buildGroupsFull_no_setVol (env : Env) (hs : String) (v : ℚ) :
    NetOp.setVol hs v ∉ (buildGroupsFull env).2.2 :=
  buildGroupsFrom_no_setVol env hs v _ _

/-- Sanity: the `Number` model accepts the JS-numeric forms a volume level can
take — leading/trailing whitespace, an explicit sign, exponent notation and
radix literals — and treats `Infinity` as an (out-of-range) infinity. -/
theorem jsNumber_forms :
    jsNumber " 50" = JSNum.num (mkRat 50 1) ∧
    jsNumber "+50" = JSNum.num (mkRat 50 1) ∧
    jsNumber "1e2" = JSNum.num (mkRat 100 1) ∧
    jsNumber "1e-2" = JSNum.num (mkRat 1 100) ∧
    jsNumber "0x32" = JSNum.num (mkRat 50 1) ∧
    jsNumber "50." = JSNum.num (mkRat 50 1) ∧
    jsNumber ".5" = JSNum.num (mkRat 1 2) ∧
    jsNumber "" = JSNum.num (mkRat 0 1) ∧
    jsNumber "Infinity" = JSNum.posInf ∧
    jsNumber "-Infinity" = JSNum.negInf ∧
    jsNumber "50a" = JSNum.nan ∧
    jsNumber "abc" = JSNum.nan := by
  refine ⟨by decide, by decide, by decide, by decide, by decide, by decide,
    by decide, by decide, by decide, by decide, by decide, by decide⟩

/-- Claim C5, amended: a volume-set request whose level converts to `NaN`,
`±Infinity`, or a finite number outside `[0,100]` is rejected after the
registry refresh and the group rebuild (which already perform network calls)
but before any volume-set call: the request never succeeds as a set and its
network trace contains no volume-set action.  (Integrality is not validated —
only `isNaN` and the numeric range.) -/
theorem claim_C5 (env : Env) (gid : Option String) (l : String)
    (h : ∀ q, jsNumber l = JSNum.num q → q < 0 ∨ 100 < q) :
    (∀ hs v, NetOp.setVol hs v ∉ (volumeHandler env gid (some l)).2) ∧
    (∀ id q, (volumeHandler env gid (some l)).1 ≠ VolOut.okSet id q) := by
  simp only [volumeHandler]
  cases hf : (buildGroupsFull env).1.find?
      (fun g => match gid with | some s => g.id == s | none => false) with
  | none =>
    constructor
    · intro hs v
      simpa using buildGroupsFull_no_setVol env hs v
    · intro id q
      simp
  | some group =>
    cases hq : jsNumber l with
    | nan =>
      exact ⟨fun hs v => by simpa using buildGroupsFull_no_setVol env hs v,
        fun id q => by simp⟩
    | posInf =>
      exact ⟨fun hs v => by simpa using buildGroupsFull_no_setVol env hs v,
        fun id q => by simp⟩
    | negInf =>
      exact ⟨fun hs v => by simpa using buildGroupsFull_no_setVol env hs v,
        fun id q => by simp⟩
    | num q =>
      have hc : (decide (q < 0) || decide (100 < q)) = true := by
        rcases h q hq with h' | h' <;> simp [h']
      constructor
      · intro hs v
        simp only [hc, if_true]
        simpa using buildGroupsFull_no_setVol env hs v
      · intro id q'
        simp only [hc, if_true]
        simp

/-- Claim C5, counterexample: with level `150` the request is rejected, but
only after the group rebuild already performed network calls (a position-info
query is in the trace; the trace is non-empty) — "before any network call" is
false, though no volume-set action occurs; and the non-integer level `50.5`
(denominator 2) is accepted and sent to a device — "validated to be an
integer" is false. -/
theorem claim_C5_counterexample :
    (volumeHandler envC5 (some "RINCON_A") (some "150")).1 =
      VolOut.errV "Volume must be 0–100" ∧
    (volumeHandler envC5 (some "RINCON_A") (some "150")).2 ≠ [] ∧
    NetOp.getPos "10.0.0.5" ∈ (volumeHandler envC5 (some "RINCON_A") (some "150")).2 ∧
    (volumeHandler envC5 (some "RINCON_A") (some "150")).2.all (fun op => !isSetVol op) = true ∧
    jsNumber "50.5" = JSNum.num (mkRat 101 2) ∧
    (mkRat 101 2).den = 2 ∧
    (volumeHandler envC5 (some "RINCON_A") (some "50.5")).1 =
      VolOut.okSet "RINCON_A" (mkRat 101 2) ∧
    NetOp.setVol "10.0.0.5" (mkRat 101 2) ∈
      (volumeHandler envC5 (some "RINCON_A") (some "50.5")).2 := by
  refine ⟨by decide, by decide, by decide, by decide, by decide, by decide, by decide, by decide⟩

/-- Claim C5, witness of the amended theorem at the concrete out-of-range
request. -/
theorem claim_C5_witness :
    (∀ hs v, NetOp.setVol hs v ∉ (volumeHandler envC5 (some "RINCON_A") (some "150")).2) ∧
    (∀ id q, (volumeHandler envC5 (some "RINCON_A") (some "150")).1 ≠ VolOut.okSet id q) :=
  claim_C5 envC5 (some "RINCON_A") "150" (fun q hq => by
    have h150 : jsNumber "150" = JSNum.num (mkRat 150 1) := by decide
    rw [h150] at hq
    injection hq with h'
    subst h'
    right
    decide)

end SonosHub
